import Mathlib

/-!
Shallow embedding of the map-generation core of `src/main.rs` (bevy-spritesim).

Modelling conventions, used uniformly below:

* Rust `i32` values are modelled as `Int` (all arithmetic in the generator is far
  from the `i32` boundaries, and comparisons/`clamp`/truncating division coincide).
* The `HashMap<(i32,i32), Tile>` grid is modelled as a function
  `(Int × Int) → Option Tile`; `insert` is pointwise functional update.
* `StdRng` is a deterministic stream of abstract draws: a function `Nat → Nat`
  plus a cursor.  Every `gen_range`/`gen_bool` call consumes exactly one draw and
  is a deterministic function of the draw, which is the contract the claims need.
* `f32` computations (simplex noise, sqrt, the height threshold test) are
  deterministic functions of their inputs; they are modelled by an oracle
  parameter `HeightOracle` receiving exactly the inputs the source feeds into the
  float pipeline (radius, the raw draws standing for the sampled frequency and
  amplitude scales, the sampled noise seed, and the cell offset).  Likewise
  `gen_bool(p)` is a deterministic function of the probability and one draw,
  modelled by a `BernOracle`.  All theorems quantify over these oracles.
* Rust `Option::unwrap` panics on `None`; it is modelled by `unwrap_tile`
  returning a placeholder tile.  In `build_map` every unwrapped lookup is at an
  initialized key, so the placeholder branch is never taken there.
-/

/-- `enum Layer` from the source. -/
inductive Layer where
  | Terrain
  | Feature
  | Special
deriving DecidableEq, Repr

/-- `enum TerrainKind` from the source. -/
inductive TerrainKind where
  | Desert
  | Plain
deriving DecidableEq, Repr

/-- `enum FeatureKind` from the source. -/
inductive FeatureKind where
  | Forest
  | Ocean
  | Hill
  | Mountain
deriving DecidableEq, Repr

/-- `enum SpecialKind` from the source. -/
inductive SpecialKind where
  | Lumber
  | Corn
  | Fish
deriving DecidableEq, Repr

/-- `enum Kind` from the source: the union of the three families. -/
inductive Kind where
  | TKind (t : TerrainKind)
  | FKind (f : FeatureKind)
  | SKind (s : SpecialKind)
deriving DecidableEq, Repr

/-- `type TileLayers = HashMap<Layer, Kind>`: at most one `Kind` per `Layer`,
so the map is exactly a triple of optional kinds. -/
structure TileLayers where
  terrain : Option Kind
  feature : Option Kind
  special : Option Kind
deriving DecidableEq, Repr

/-- `HashMap::get` on a `TileLayers`. -/
def TileLayers.get (l : TileLayers) : Layer → Option Kind
  | Layer.Terrain => l.terrain
  | Layer.Feature => l.feature
  | Layer.Special => l.special

/-- `HashMap::insert` on a `TileLayers`. -/
def TileLayers.insert (l : TileLayers) : Layer → Kind → TileLayers
  | Layer.Terrain, k => { l with terrain := some k }
  | Layer.Feature, k => { l with feature := some k }
  | Layer.Special, k => { l with special := some k }

/-- `HashMap::remove` on a `TileLayers`. -/
def TileLayers.remove (l : TileLayers) : Layer → TileLayers
  | Layer.Terrain => { l with terrain := none }
  | Layer.Feature => { l with feature := none }
  | Layer.Special => { l with special := none }

/-- `TileLayers::new()`. -/
def TileLayers.empty : TileLayers := ⟨none, none, none⟩

/-- `struct Tile`: layers plus the cached render-space ("real") coordinates.
The source stores `(key.0 as f32 * SPRITE_SIZE, key.1 as f32 * SPRITE_SIZE)`;
with `SPRITE_SIZE = 16` these products are exact in `f32` for all map keys, so
they are modelled as the exact integers. -/
structure Tile where
  layers : TileLayers
  real_coordinates : Int × Int
deriving DecidableEq, Repr

/-- `type Map = HashMap<(i32,i32), Tile>`, modelled as a function. -/
abbrev Map := (Int × Int) → Option Tile

/-- `HashMap::insert` on the grid. -/
def Map.insert (m : Map) (k : Int × Int) (t : Tile) : Map :=
  fun k' => if k' = k then some t else m k'

/-- Model of `Option::unwrap` on tile lookups: the placeholder tile stands for
the Rust panic and is never reached on `build_map`'s initialized grid. -/
def unwrap_tile (o : Option Tile) : Tile :=
  o.getD { layers := TileLayers.empty, real_coordinates := (0, 0) }

/- Constants from the source. -/

def SPRITE_SIZE : Int := 16

def MAP_WIDTH : Int := 200

def MAP_HEIGHT : Int := 200

/-- `fn get_kind_of_tile_layer`. -/
def get_kind_of_tile_layer (tile : Tile) (layer : Layer) : Option Kind :=
  tile.layers.get layer

/-- `fn get_layer_from_kind`. -/
def get_layer_from_kind : Kind → Layer
  | Kind.TKind _ => Layer.Terrain
  | Kind.FKind _ => Layer.Feature
  | Kind.SKind _ => Layer.Special

/-- One neighbor lookup in `get_tiles_to_display`:
`map.get(&(x+dx, y+dy)).unwrap_or(&default_tile)` where `default_tile` is the
queried tile itself, then `get_kind_of_tile_layer` on the queried layer. -/
def neighbor_kind (tile : Tile) (m : Map) (c : Int × Int) (layer : Layer)
    (dx dy : Int) : Option Kind :=
  get_kind_of_tile_layer ((m (c.1 + dx, c.2 + dy)).getD tile) layer

/-- The ordered 46-row truth table of `get_tiles_to_display` (plus the default
row).  The scrutinee is the tuple of the eight neighbor-matches-own-kind bits in
source order (top_left, top, top_right, left, right, bottom_left, bottom,
bottom_right); the second component of each result is the designated neighbor's
kind, exactly as in the source. -/
def resolve_pattern (bits : Bool × Bool × Bool × Bool × Bool × Bool × Bool × Bool)
    (top_left top top_right left right bottom_left bottom bottom_right : Option Kind) :
    Nat × Option Kind :=
  match bits with
  -- Regular corners
  | (_, false, _, false, true, _, true, true) => (0, top)
  | (_, false, _, true, false, true, true, _) => (2, top)
  | (_, true, true, false, true, _, false, _) => (14, left)
  | (true, true, _, true, false, _, false, _) => (16, right)
  -- Regular sides
  | (_, true, true, false, true, _, true, true) => (7, left)
  | (true, true, _, true, false, true, true, _) => (9, right)
  | (_, false, _, true, true, true, true, true) => (1, top)
  | (true, true, true, true, true, _, false, _) => (15, bottom)
  -- 1-width tiles, vertical
  | (_, false, _, false, false, _, true, _) => (3, top)
  | (_, true, _, false, false, _, true, _) => (10, left)
  | (_, true, _, false, false, _, false, _) => (17, right)
  -- 1-width tiles, horizontal
  | (_, false, _, false, true, _, false, _) => (21, top)
  | (_, false, _, true, true, _, false, _) => (22, top)
  | (_, false, _, true, false, _, false, _) => (23, top)
  -- Single internal corners (without edges)
  | (true, true, true, true, true, true, true, false) => (4, bottom_right)
  | (true, true, true, true, true, false, true, true) => (5, bottom_left)
  | (true, true, false, true, true, true, true, true) => (11, top_right)
  | (false, true, true, true, true, true, true, true) => (12, top_left)
  -- Single internal corners (with vertical edges)
  | (_, true, true, false, true, _, true, false) => (28, left)
  | (true, true, _, true, false, false, true, _) => (29, right)
  | (_, true, false, false, true, _, true, true) => (35, top_right)
  | (false, true, _, true, false, true, true, _) => (36, top_left)
  -- Single internal corners (with horizontal edges)
  | (_, false, _, true, true, true, true, false) => (30, top)
  | (_, false, _, true, true, false, true, true) => (31, top)
  | (true, true, false, true, true, _, false, _) => (37, top_right)
  | (false, true, true, true, true, _, false, _) => (38, top_left)
  -- Double internal corners (without edges)
  | (false, true, false, true, true, true, true, true) => (6, top_left)
  | (false, true, true, true, true, false, true, true) => (13, top_left)
  | (true, true, false, true, true, true, true, false) => (20, top_right)
  | (true, true, true, true, true, false, true, false) => (27, bottom_right)
  | (true, true, false, true, true, false, true, true) => (44, top_right)
  | (false, true, true, true, true, true, true, false) => (45, top_left)
  -- Triple internal corners (without edges)
  | (false, true, false, true, true, true, true, false) => (18, top_left)
  | (false, true, true, true, true, false, true, false) => (19, top_left)
  | (true, true, false, true, true, false, true, false) => (25, top_right)
  | (false, true, false, true, true, false, true, true) => (26, top_left)
  -- Corners + opposite internal corners
  | (_, false, _, false, true, _, true, false) => (32, top)
  | (_, false, _, true, false, false, true, _) => (34, top)
  | (_, true, false, false, true, _, false, _) => (46, top_right)
  | (false, true, _, true, false, _, false, _) => (48, top_left)
  -- Edges + opposite internal corners
  | (_, false, _, true, true, false, true, false) => (33, top)
  | (_, true, false, false, true, _, true, false) => (39, top_right)
  | (false, true, _, true, false, false, true, _) => (41, top_left)
  | (false, true, false, true, true, _, false, _) => (47, top_left)
  -- Center tiles
  | (true, true, true, true, true, true, true, true) => (8, top_left)
  | (false, true, false, true, true, false, true, false) => (40, top_left)
  | (_, _, _, _, _, _, _, _) => (24, top)

/-- Does one of the 46 specific rows of `resolve_pattern` match?  Same ordered
pattern list with `true` results; only patterns reaching the source's default
row yield `false`. -/
def some_rule_matches (bits : Bool × Bool × Bool × Bool × Bool × Bool × Bool × Bool) : Bool :=
  match bits with
  | (_, false, _, false, true, _, true, true) => true
  | (_, false, _, true, false, true, true, _) => true
  | (_, true, true, false, true, _, false, _) => true
  | (true, true, _, true, false, _, false, _) => true
  | (_, true, true, false, true, _, true, true) => true
  | (true, true, _, true, false, true, true, _) => true
  | (_, false, _, true, true, true, true, true) => true
  | (true, true, true, true, true, _, false, _) => true
  | (_, false, _, false, false, _, true, _) => true
  | (_, true, _, false, false, _, true, _) => true
  | (_, true, _, false, false, _, false, _) => true
  | (_, false, _, false, true, _, false, _) => true
  | (_, false, _, true, true, _, false, _) => true
  | (_, false, _, true, false, _, false, _) => true
  | (true, true, true, true, true, true, true, false) => true
  | (true, true, true, true, true, false, true, true) => true
  | (true, true, false, true, true, true, true, true) => true
  | (false, true, true, true, true, true, true, true) => true
  | (_, true, true, false, true, _, true, false) => true
  | (true, true, _, true, false, false, true, _) => true
  | (_, true, false, false, true, _, true, true) => true
  | (false, true, _, true, false, true, true, _) => true
  | (_, false, _, true, true, true, true, false) => true
  | (_, false, _, true, true, false, true, true) => true
  | (true, true, false, true, true, _, false, _) => true
  | (false, true, true, true, true, _, false, _) => true
  | (false, true, false, true, true, true, true, true) => true
  | (false, true, true, true, true, false, true, true) => true
  | (true, true, false, true, true, true, true, false) => true
  | (true, true, true, true, true, false, true, false) => true
  | (true, true, false, true, true, false, true, true) => true
  | (false, true, true, true, true, true, true, false) => true
  | (false, true, false, true, true, true, true, false) => true
  | (false, true, true, true, true, false, true, false) => true
  | (true, true, false, true, true, false, true, false) => true
  | (false, true, false, true, true, false, true, true) => true
  | (_, false, _, false, true, _, true, false) => true
  | (_, false, _, true, false, false, true, _) => true
  | (_, true, false, false, true, _, false, _) => true
  | (false, true, _, true, false, _, false, _) => true
  | (_, false, _, true, true, false, true, false) => true
  | (_, true, false, false, true, _, true, false) => true
  | (false, true, _, true, false, false, true, _) => true
  | (false, true, false, true, true, _, false, _) => true
  | (true, true, true, true, true, true, true, true) => true
  | (false, true, false, true, true, false, true, false) => true
  | (_, _, _, _, _, _, _, _) => false

/-- `fn get_tiles_to_display`: gathers the eight Moore neighbors (a missing
grid entry defaults to the queried tile itself), builds the match bits against
the queried cell's own kind on the layer, and resolves through the ordered
table.  The `Special` layer short-circuits to `(0, None)`. -/
def get_tiles_to_display (tile : Tile) (m : Map) (coordinates : Int × Int)
    (layer : Layer) : Nat × Option Kind :=
  let kind := get_kind_of_tile_layer tile layer
  match layer with
  | Layer.Terrain | Layer.Feature =>
    let top_left := neighbor_kind tile m coordinates layer (-1) 1
    let top := neighbor_kind tile m coordinates layer 0 1
    let top_right := neighbor_kind tile m coordinates layer 1 1
    let left := neighbor_kind tile m coordinates layer (-1) 0
    let right := neighbor_kind tile m coordinates layer 1 0
    let bottom_left := neighbor_kind tile m coordinates layer (-1) (-1)
    let bottom := neighbor_kind tile m coordinates layer 0 (-1)
    let bottom_right := neighbor_kind tile m coordinates layer 1 (-1)
    resolve_pattern
      (decide (top_left = kind), decide (top = kind), decide (top_right = kind),
        decide (left = kind), decide (right = kind), decide (bottom_left = kind),
        decide (bottom = kind), decide (bottom_right = kind))
      top_left top top_right left right bottom_left bottom bottom_right
  | Layer.Special => (0, none)

/-- Deterministic model of `StdRng`: an abstract stream of draws plus a cursor.
A concrete seeded `StdRng` determines one such stream, so equal seeds give equal
streams; every theorem below quantifies over all streams. -/
structure StdRng where
  stream : Nat → Nat
  idx : Nat

/-- Consume one draw. -/
def StdRng.draw (r : StdRng) : Nat × StdRng :=
  (r.stream r.idx, ⟨r.stream, r.idx + 1⟩)

/-- Model of `gen_range(lo..hi)` on half-open integer ranges: one draw, reduced
into the range; a deterministic function of the state, which is all the claims
use. -/
def gen_range_int (r : StdRng) (lo hi : Int) : Int × StdRng :=
  let d := r.draw
  (lo + (Int.ofNat d.1) % (hi - lo), d.2)

/-- Model of `gen_range(lo..=hi)` on inclusive integer ranges. -/
def gen_range_incl (r : StdRng) (lo hi : Int) : Int × StdRng :=
  let d := r.draw
  (lo + (Int.ofNat d.1) % (hi - lo + 1), d.2)

/-- Oracle standing for the f32 pipeline of one patch cell:
`simplex_noise_2d_seeded(vec2(w,h) * frequency_scale, seed) * amplitude_scale`
followed by `radius + offset - sqrt(w*w + h*h) > 0`.  Arguments, in source
order of appearance: the sampled radius, the raw draws that produced the
sampled `frequency_scale` and `amplitude_scale` (the f32 values are functions
of these draws), the sampled noise seed, and the cell offset `(w, h)`.  The
result is the boolean `height > height_threshold`. -/
abbrev HeightOracle := Int → Nat → Nat → Int → Int → Int → Bool

/-- Oracle standing for `gen_bool(p)`: a deterministic function of the
probability (given in percent: `1` for `0.01`, `5` for `0.05`) and of the one
consumed draw. -/
abbrev BernOracle := Nat → Nat → Bool

/-- Rust `for x in lo..hi` iteration order. -/
def int_range_co (lo hi : Int) : List Int :=
  (List.range (hi - lo).toNat).map (fun (i : Nat) => lo + (i : Int))

/-- Rust `for x in lo..=hi` iteration order. -/
def int_range_icc (lo hi : Int) : List Int :=
  int_range_co lo (hi + 1)

/-- Rust `i32::clamp(lo, hi)`. -/
def clampI (x lo hi : Int) : Int := min (max x lo) hi

/-- The grid key written for cell offset `(w, h)` of a patch centered at
`coordinates`:
`((coordinates.0 + w).clamp(1, MAP_WIDTH - 1), (coordinates.1 + h).clamp(1, MAP_HEIGHT - 1))`. -/
def patch_key (coordinates : Int × Int) (w h : Int) : Int × Int :=
  (clampI (coordinates.1 + w) 1 (MAP_WIDTH - 1), clampI (coordinates.2 + h) 1 (MAP_HEIGHT - 1))

/-- The body of the innermost loop of `generate_multiple_patches`: draw the
per-cell noise seed (`gen_range(0..MAX_u32)`), test eligibility (the height
threshold, and for Forest the current-Terrain-is-Plain check at the clamped
key), and on success overwrite the tile at the clamped key, removing its
Feature entry and inserting `kind` on its layer. -/
def apply_patch_cell (hp : HeightOracle) (kind : Kind) (radius : Int)
    (freqRaw ampRaw : Nat) (center : Int × Int) (w h : Int)
    (st : Map × StdRng) : Map × StdRng :=
  let seedDraw := gen_range_int st.2 0 4294967295
  let offsetOk := hp radius freqRaw ampRaw seedDraw.1 w h
  let key := patch_key center w h
  if offsetOk = true ∧
      (kind ≠ Kind.FKind FeatureKind.Forest ∨
        (unwrap_tile (st.1 key)).layers.get Layer.Terrain = some (Kind.TKind TerrainKind.Plain)) then
    (st.1.insert key
      { layers := ((unwrap_tile (st.1 key)).layers.remove Layer.Feature).insert
          (get_layer_from_kind kind) kind,
        real_coordinates := (key.1 * SPRITE_SIZE, key.2 * SPRITE_SIZE) },
      seedDraw.2)
  else (st.1, seedDraw.2)

/-- One patch of `generate_multiple_patches`: sample radius, frequency scale
and amplitude scale once, then run the nested cell loops over
`[-radius-1, radius+1]^2`. -/
def apply_patch (hp : HeightOracle) (kind : Kind) (radiusLo radiusHi : Int)
    (center : Int × Int) (st : Map × StdRng) : Map × StdRng :=
  let radiusDraw := gen_range_int st.2 radiusLo radiusHi
  let freqDraw := radiusDraw.2.draw
  let ampDraw := freqDraw.2.draw
  let grid_half_size := radiusDraw.1 + 1
  (int_range_icc (-grid_half_size) grid_half_size).foldl
    (fun st2 w =>
      (int_range_icc (-grid_half_size) grid_half_size).foldl
        (fun st3 h =>
          apply_patch_cell hp kind radiusDraw.1 freqDraw.1 ampDraw.1 center w h st3)
        st2)
    (st.1, ampDraw.2)

/-- The center-placement loop of `generate_multiple_patches`:
w-major, h-minor, `center = (jitter + MAP_WIDTH*w/count, jitter + MAP_HEIGHT*h/count)`
with jitter drawn from `-5..=5` (x first, then y). -/
def patch_centers (count : Int) (rng : StdRng) : List (Int × Int) × StdRng :=
  (int_range_co 1 count).foldl
    (fun acc w =>
      (int_range_co 1 count).foldl
        (fun acc2 h =>
          let d1 := gen_range_incl acc2.2 (-5) 5
          let d2 := gen_range_incl d1.2 (-5) 5
          (acc2.1 ++ [(d1.1 + MAP_WIDTH * w / count, d2.1 + MAP_HEIGHT * h / count)], d2.2))
        acc)
    ([], rng)

/-- `fn generate_multiple_patches`, written exactly in the source's shape:
place the centers, then for each center sample radius/frequency/amplitude and
run the nested cell loops, drawing the noise seed inside the innermost loop.
The f32 `frequency_range`/`amplitude_range` arguments influence only the
sampled f32 values, which enter the model through the `HeightOracle` raw
draws, so they carry no parameters here. -/
def generate_multiple_patches (hp : HeightOracle) (rng : StdRng) (m : Map)
    (kind : Kind) (count radiusLo radiusHi : Int) : Map × StdRng :=
  let centers :=
    (int_range_co 1 count).foldl
      (fun acc w =>
        (int_range_co 1 count).foldl
          (fun acc2 h =>
            let d1 := gen_range_incl acc2.2 (-5) 5
            let d2 := gen_range_incl d1.2 (-5) 5
            (acc2.1 ++ [(d1.1 + MAP_WIDTH * w / count, d2.1 + MAP_HEIGHT * h / count)], d2.2))
          acc)
      ([], rng)
  centers.1.foldl
    (fun st center =>
      let radiusDraw := gen_range_int st.2 radiusLo radiusHi
      let freqDraw := radiusDraw.2.draw
      let ampDraw := freqDraw.2.draw
      let grid_half_size := radiusDraw.1 + 1
      (int_range_icc (-grid_half_size) grid_half_size).foldl
        (fun st2 w =>
          (int_range_icc (-grid_half_size) grid_half_size).foldl
            (fun st3 h =>
              let seedDraw := gen_range_int st3.2 0 4294967295
              let offsetOk := hp radiusDraw.1 freqDraw.1 ampDraw.1 seedDraw.1 w h
              let key := patch_key center w h
              if offsetOk = true ∧
                  (kind ≠ Kind.FKind FeatureKind.Forest ∨
                    (unwrap_tile (st3.1 key)).layers.get Layer.Terrain =
                      some (Kind.TKind TerrainKind.Plain)) then
                (st3.1.insert key
                  { layers := ((unwrap_tile (st3.1 key)).layers.remove Layer.Feature).insert
                      (get_layer_from_kind kind) kind,
                    real_coordinates := (key.1 * SPRITE_SIZE, key.2 * SPRITE_SIZE) },
                  seedDraw.2)
              else (st3.1, seedDraw.2))
            st2)
        (st.1, ampDraw.2))
    (m, centers.2)

/-- The same function factored through `patch_centers`/`apply_patch`/
`apply_patch_cell`, making explicit that radius, frequency scale and amplitude
scale are drawn exactly once per patch while the noise seed is drawn once per
cell offset. -/
def generate_multiple_patches_factored (hp : HeightOracle) (rng : StdRng) (m : Map)
    (kind : Kind) (count radiusLo radiusHi : Int) : Map × StdRng :=
  let centers := patch_centers count rng
  centers.1.foldl
    (fun st center => apply_patch hp kind radiusLo radiusHi center st)
    (m, centers.2)

/-- Modelled from the spec: `generateMultiplePatches` as §4.4/§4.5 describe it,
with the `noiseSeed` of the ephemeral PatchSpec sampled once per patch (after
radius, frequency scale and amplitude scale) and shared by all cell offsets of
that patch.  Used only to compare against the source behaviour. -/
def generate_multiple_patches_patch_seed (hp : HeightOracle) (rng : StdRng) (m : Map)
    (kind : Kind) (count radiusLo radiusHi : Int) : Map × StdRng :=
  let centers := patch_centers count rng
  centers.1.foldl
    (fun st center =>
      let radiusDraw := gen_range_int st.2 radiusLo radiusHi
      let freqDraw := radiusDraw.2.draw
      let ampDraw := freqDraw.2.draw
      let seedDraw := gen_range_int ampDraw.2 0 4294967295
      let grid_half_size := radiusDraw.1 + 1
      (int_range_icc (-grid_half_size) grid_half_size).foldl
        (fun st2 w =>
          (int_range_icc (-grid_half_size) grid_half_size).foldl
            (fun st3 h =>
              let offsetOk := hp radiusDraw.1 freqDraw.1 ampDraw.1 seedDraw.1 w h
              let key := patch_key center w h
              if offsetOk = true ∧
                  (kind ≠ Kind.FKind FeatureKind.Forest ∨
                    (unwrap_tile (st3.1 key)).layers.get Layer.Terrain =
                      some (Kind.TKind TerrainKind.Plain)) then
                (st3.1.insert key
                  { layers := ((unwrap_tile (st3.1 key)).layers.remove Layer.Feature).insert
                      (get_layer_from_kind kind) kind,
                    real_coordinates := (key.1 * SPRITE_SIZE, key.2 * SPRITE_SIZE) },
                  st3.2)
              else (st3.1, st3.2))
            st2)
        (st.1, seedDraw.2))
    (m, centers.2)

/-- The layer map built by `update_tile_in_map`: start from the coordinate's
current layers (or fresh ones) and insert each provided kind on its layer. -/
def upd_layers (l : TileLayers) (tk : Option TerrainKind) (fk : Option FeatureKind)
    (sk : Option SpecialKind) : TileLayers :=
  let l1 := match tk with
    | some k => l.insert Layer.Terrain (Kind.TKind k)
    | none => l
  let l2 := match fk with
    | some k => l1.insert Layer.Feature (Kind.FKind k)
    | none => l1
  match sk with
  | some k => l2.insert Layer.Special (Kind.SKind k)
  | none => l2

/-- `match map.get(coordinates) { Some(tile) => tile.layers.clone(), None => TileLayers::new() }`. -/
def base_layers (m : Map) (c : Int × Int) : TileLayers :=
  match m c with
  | some tile => tile.layers
  | none => TileLayers.empty

/-- `fn update_tile_in_map`. -/
def update_tile_in_map (m : Map) (coordinates : Int × Int) (tk : Option TerrainKind)
    (fk : Option FeatureKind) (sk : Option SpecialKind) : Map :=
  m.insert coordinates
    { layers := upd_layers (base_layers m coordinates) tk fk sk,
      real_coordinates := (coordinates.1 * SPRITE_SIZE, coordinates.2 * SPRITE_SIZE) }

/-- The initialization loop of `build_map`: every `(w, h)` with
`0 <= w <= MAP_WIDTH`, `0 <= h <= MAP_HEIGHT` (both loops are inclusive in the
source) is set to Plain terrain with an Ocean feature. -/
def init_pass (m : Map) : Map :=
  (int_range_icc 0 MAP_WIDTH).foldl
    (fun acc w =>
      (int_range_icc 0 MAP_HEIGHT).foldl
        (fun acc2 h =>
          update_tile_in_map acc2 (w, h) (some TerrainKind.Plain) (some FeatureKind.Ocean) none)
        acc)
    m

/-- The per-cell body of the desert-band loop of `build_map`: draw `delta`
unconditionally, then if the cell's Terrain is Plain and `h` lies inside the
randomized band, write Desert via `update_tile_in_map`. -/
def desert_cell (thickness : Int) (w h : Int) (st : Map × StdRng) : Map × StdRng :=
  let deltaDraw := gen_range_int st.2 0 (10 * MAP_HEIGHT / 100)
  if (unwrap_tile (st.1 (w, h))).layers.get Layer.Terrain = some (Kind.TKind TerrainKind.Plain) ∧
      h > MAP_HEIGHT / 2 - thickness - deltaDraw.1 ∧
      h < MAP_HEIGHT / 2 + thickness + deltaDraw.1 then
    (update_tile_in_map st.1 (w, h) (some TerrainKind.Desert) none none, deltaDraw.2)
  else (st.1, deltaDraw.2)

/-- The desert-band double loop of `build_map`. -/
def desert_pass (thickness : Int) (st : Map × StdRng) : Map × StdRng :=
  (int_range_icc 0 MAP_WIDTH).foldl
    (fun st2 w =>
      (int_range_icc 0 MAP_HEIGHT).foldl
        (fun st3 h => desert_cell thickness w h st3)
        st2)
    st

/-- The per-cell body of the specials loop of `build_map`, with the source's
match-guard evaluation order: the `gen_bool` draw of an arm is consumed only
when the arm's other conditions hold (the three arms' conditions are mutually
exclusive, so at most one draw happens per cell). -/
def specials_cell (bern : BernOracle) (w h : Int) (st : Map × StdRng) : Map × StdRng :=
  let tile := unwrap_tile (st.1 (w, h))
  let terrain_kind := tile.layers.get Layer.Terrain
  let feature_kind := tile.layers.get Layer.Feature
  if terrain_kind = some (Kind.TKind TerrainKind.Plain) ∧ feature_kind = none then
    let d := st.2.draw
    if bern 1 d.1 then
      (update_tile_in_map st.1 (w, h) none none (some SpecialKind.Corn), d.2)
    else (st.1, d.2)
  else if feature_kind = some (Kind.FKind FeatureKind.Forest) then
    let d := st.2.draw
    if bern 5 d.1 then
      (update_tile_in_map st.1 (w, h) none none (some SpecialKind.Lumber), d.2)
    else (st.1, d.2)
  else if feature_kind = some (Kind.FKind FeatureKind.Ocean) then
    let d := st.2.draw
    if bern 1 d.1 then
      (update_tile_in_map st.1 (w, h) none none (some SpecialKind.Fish), d.2)
    else (st.1, d.2)
  else (st.1, st.2)

/-- The specials double loop of `build_map`. -/
def specials_pass (bern : BernOracle) (st : Map × StdRng) : Map × StdRng :=
  (int_range_icc 0 MAP_WIDTH).foldl
    (fun st2 w =>
      (int_range_icc 0 MAP_HEIGHT).foldl
        (fun st3 h => specials_cell bern w h st3)
        st2)
    st

/-- Projection of the grid out of a threaded `(grid, rng)` state; `build_map`
returns only the grid (the source takes the rng by mutable reference). -/
def map_component (st : Map × StdRng) : Map := st.1

/-- `fn build_map`: draw the (only logged) map seed, initialize the grid, run
the Plain-continent patches, the desert band, the Forest/Hill/Mountain
patches, then place specials. -/
def build_map (hp : HeightOracle) (bern : BernOracle) (rng : StdRng) : Map :=
  let seedDraw := gen_range_int rng 0 (2 ^ 64 - 1)
  let m0 := init_pass (fun _ => none)
  let s1 := generate_multiple_patches hp seedDraw.2 m0 (Kind.TKind TerrainKind.Plain) 8 5 25
  let thicknessDraw := gen_range_int s1.2 (5 * MAP_HEIGHT / 100) (10 * MAP_HEIGHT / 100)
  let s2 := desert_pass thicknessDraw.1 (s1.1, thicknessDraw.2)
  let s3 := generate_multiple_patches hp s2.2 s2.1 (Kind.FKind FeatureKind.Forest) 15 1 3
  let s4 := generate_multiple_patches hp s3.2 s3.1 (Kind.FKind FeatureKind.Hill) 10 3 5
  let s5 := generate_multiple_patches hp s4.2 s4.1 (Kind.FKind FeatureKind.Mountain) 10 2 4
  map_component (specials_pass bern (s5.1, s5.2))

/- Concrete oracles, streams and grids used by witnesses and counterexamples. -/

/-- Height oracle that never accepts a cell. -/
def hp_false : HeightOracle := fun _ _ _ _ _ _ => false

/-- Height oracle that accepts every cell. -/
def hp_true : HeightOracle := fun _ _ _ _ _ _ => true

/-- Height oracle that depends only on the sampled noise seed: under the
spec's once-per-patch seed sampling, all cells of a patch would agree on it. -/
def hp_seed_parity : HeightOracle := fun _ _ _ seed _ _ => decide (seed % 2 = 0)

/-- Bernoulli oracle that never fires. -/
def bern_false : BernOracle := fun _ _ => false

/-- The identity draw stream. -/
def rng_id : StdRng := ⟨fun i => i, 0⟩

/-- The all-zero draw stream. -/
def rng_zero : StdRng := ⟨fun _ => 0, 0⟩

/-- An everywhere Plain/Ocean grid, a concrete starting state. -/
def plain_ocean_map : Map :=
  fun _ => some { layers := ⟨some (Kind.TKind TerrainKind.Plain),
                             some (Kind.FKind FeatureKind.Ocean), none⟩,
                  real_coordinates := (0, 0) }

/-- A single Plain tile. -/
def tile_plain : Tile := ⟨⟨some (Kind.TKind TerrainKind.Plain), none, none⟩, (0, 0)⟩

/-- A grid whose origin is Plain and every other cell Desert, exercising the
all-mismatch neighbor pattern. -/
def map_desert_ring : Map :=
  fun k => if k = (0, 0) then some tile_plain
           else some ⟨⟨some (Kind.TKind TerrainKind.Desert), none, none⟩, (0, 0)⟩

/- Basic lemmas about the grid and tile-layer operations. -/

theorem Map.insert_lookup (m : Map) (k k' : Int × Int) (t : Tile) :
    (m.insert k t) k' = if k' = k then some t else m k' := rfl

theorem Map.insert_self (m : Map) (k : Int × Int) (t : Tile) : (m.insert k t) k = some t := by
  simp [Map.insert]

theorem Map.insert_other (m : Map) (k k' : Int × Int) (t : Tile) (h : k' ≠ k) :
    (m.insert k t) k' = m k' := by
  simp [Map.insert, h]

theorem update_tile_self (m : Map) (c : Int × Int) (tk : Option TerrainKind)
    (fk : Option FeatureKind) (sk : Option SpecialKind) :
    (update_tile_in_map m c tk fk sk) c =
      some { layers := upd_layers (base_layers m c) tk fk sk,
             real_coordinates := (c.1 * SPRITE_SIZE, c.2 * SPRITE_SIZE) } := by
  simp [update_tile_in_map, Map.insert]

theorem update_tile_other (m : Map) (c k : Int × Int) (tk : Option TerrainKind)
    (fk : Option FeatureKind) (sk : Option SpecialKind) (h : k ≠ c) :
    (update_tile_in_map m c tk fk sk) k = m k := by
  simp [update_tile_in_map, Map.insert, h]

theorem upd_layers_terrain_only (l : TileLayers) (tk : TerrainKind) :
    upd_layers l (some tk) none none = ⟨some (Kind.TKind tk), l.feature, l.special⟩ := rfl

theorem upd_layers_init (l : TileLayers) :
    upd_layers l (some TerrainKind.Plain) (some FeatureKind.Ocean) none =
      ⟨some (Kind.TKind TerrainKind.Plain), some (Kind.FKind FeatureKind.Ocean), l.special⟩ := rfl

theorem upd_layers_special_only (l : TileLayers) (sk : SpecialKind) :
    upd_layers l none none (some sk) = ⟨l.terrain, l.feature, some (Kind.SKind sk)⟩ := rfl

/-- The tile written by a successful patch-cell write at `key`. -/
def patch_tile (m : Map) (kind : Kind) (key : Int × Int) : Tile :=
  { layers := ((unwrap_tile (m key)).layers.remove Layer.Feature).insert
      (get_layer_from_kind kind) kind,
    real_coordinates := (key.1 * SPRITE_SIZE, key.2 * SPRITE_SIZE) }

theorem patch_tile_tkind (m : Map) (tk : TerrainKind) (key : Int × Int) :
    (patch_tile m (Kind.TKind tk) key).layers =
      ⟨some (Kind.TKind tk), none, (unwrap_tile (m key)).layers.special⟩ := rfl

theorem patch_tile_fkind (m : Map) (fk : FeatureKind) (key : Int × Int) :
    (patch_tile m (Kind.FKind fk) key).layers =
      ⟨(unwrap_tile (m key)).layers.terrain, some (Kind.FKind fk),
        (unwrap_tile (m key)).layers.special⟩ := rfl

/- Iteration ranges and fold invariance. -/

theorem mem_int_range_co {x lo hi : Int} : x ∈ int_range_co lo hi ↔ lo ≤ x ∧ x < hi := by
  unfold int_range_co
  rw [List.mem_map]
  constructor
  · rintro ⟨i, hi', rfl⟩
    rw [List.mem_range] at hi'
    omega
  · intro hx
    refine ⟨(x - lo).toNat, ?_, ?_⟩
    · rw [List.mem_range]
      omega
    · omega

theorem mem_int_range_icc {x lo hi : Int} : x ∈ int_range_icc lo hi ↔ lo ≤ x ∧ x ≤ hi := by
  rw [int_range_icc, mem_int_range_co]
  omega

theorem int_range_co_nodup (lo hi : Int) : (int_range_co lo hi).Nodup :=
  (List.nodup_range _).map (fun a b hab => by omega)

theorem int_range_icc_nodup (lo hi : Int) : (int_range_icc lo hi).Nodup :=
  int_range_co_nodup lo (hi + 1)

theorem clampI_lb (x lo hi : Int) (h : lo ≤ hi) : lo ≤ clampI x lo hi :=
  le_min (le_max_right x lo) h

theorem clampI_ub (x lo hi : Int) : clampI x lo hi ≤ hi := min_le_right _ _

theorem foldl_inv {α β : Type _} (P : β → Prop) (f : β → α → β) :
    ∀ (l : List α) (b : β), P b → (∀ b' a, a ∈ l → P b' → P (f b' a)) → P (l.foldl f b) := by
  intro l
  induction l with
  | nil => exact fun b hb _ => hb
  | cons a t ih =>
    intro b hb hf
    exact ih (f b a) (hf b a (List.mem_cons_self a t) hb)
      (fun b' a' ha' hb' => hf b' a' (List.mem_cons_of_mem a ha') hb')

/- Shape of the per-cell state transitions. -/

theorem apply_patch_cell_shape (hp : HeightOracle) (kind : Kind) (radius : Int)
    (freqRaw ampRaw : Nat) (center : Int × Int) (w h : Int) (st : Map × StdRng) :
    (apply_patch_cell hp kind radius freqRaw ampRaw center w h st).1 = st.1 ∨
    ((apply_patch_cell hp kind radius freqRaw ampRaw center w h st).1 =
        st.1.insert (patch_key center w h) (patch_tile st.1 kind (patch_key center w h)) ∧
      (kind = Kind.FKind FeatureKind.Forest →
        (unwrap_tile (st.1 (patch_key center w h))).layers.get Layer.Terrain =
          some (Kind.TKind TerrainKind.Plain))) := by
  unfold apply_patch_cell
  dsimp only
  split
  next hcond =>
    right
    refine ⟨rfl, fun hk => ?_⟩
    rcases hcond.2 with hne | hpl
    · exact absurd hk hne
    · exact hpl
  next => left; rfl

theorem desert_cell_shape (thickness w h : Int) (st : Map × StdRng) :
    (desert_cell thickness w h st).1 = st.1 ∨
    (desert_cell thickness w h st).1 =
      update_tile_in_map st.1 (w, h) (some TerrainKind.Desert) none none := by
  unfold desert_cell
  dsimp only
  split
  · right; rfl
  · left; rfl

theorem specials_cell_shape (bern : BernOracle) (w h : Int) (st : Map × StdRng) :
    (specials_cell bern w h st).1 = st.1 ∨
    ∃ s : SpecialKind,
      (specials_cell bern w h st).1 = update_tile_in_map st.1 (w, h) none none (some s) ∧
      (s = SpecialKind.Corn →
        (unwrap_tile (st.1 (w, h))).layers.get Layer.Terrain = some (Kind.TKind TerrainKind.Plain) ∧
        (unwrap_tile (st.1 (w, h))).layers.get Layer.Feature = none) ∧
      (s = SpecialKind.Lumber →
        (unwrap_tile (st.1 (w, h))).layers.get Layer.Feature = some (Kind.FKind FeatureKind.Forest)) ∧
      (s = SpecialKind.Fish →
        (unwrap_tile (st.1 (w, h))).layers.get Layer.Feature = some (Kind.FKind FeatureKind.Ocean)) := by
  unfold specials_cell
  dsimp only
  split
  next hcorn =>
    split
    · right
      exact ⟨SpecialKind.Corn, rfl, fun _ => hcorn, nofun, nofun⟩
    · left; rfl
  next =>
    split
    next hlumber =>
      split
      · right
        exact ⟨SpecialKind.Lumber, rfl, nofun, fun _ => hlumber, nofun⟩
      · left; rfl
    next =>
      split
      next hfish =>
        split
        · right
          exact ⟨SpecialKind.Fish, rfl, nofun, nofun, fun _ => hfish⟩
        · left; rfl
      next => left; rfl

/- Grid-wide invariants. -/

/-- Every tile present in the grid satisfies `Q`. -/
def AllTiles (Q : Tile → Prop) (m : Map) : Prop := ∀ k t, m k = some t → Q t

theorem AllTiles.insert_tile {Q : Tile → Prop} {m : Map} (hm : AllTiles Q m) (k : Int × Int)
    {t : Tile} (ht : Q t) : AllTiles Q (m.insert k t) := by
  intro k' t' hk'
  rw [Map.insert_lookup] at hk'
  by_cases he : k' = k
  · rw [if_pos he] at hk'
    cases hk'
    exact ht
  · rw [if_neg he] at hk'
    exact hm k' t' hk'

/-- No tile carries the Forest feature. -/
def NoForest : Map → Prop :=
  AllTiles (fun t => t.layers.feature ≠ some (Kind.FKind FeatureKind.Forest))

/-- Every Forest-feature tile has Plain terrain (claim C5's invariant). -/
def ForestPlain : Map → Prop :=
  AllTiles (fun t => t.layers.feature = some (Kind.FKind FeatureKind.Forest) →
    t.layers.terrain = some (Kind.TKind TerrainKind.Plain))

/-- No tile carries a Special entry. -/
def NoSpecial : Map → Prop := AllTiles (fun t => t.layers.special = none)

/-- Claim C10's per-tile consistency of the Special layer. -/
def SpecialConsistent (t : Tile) : Prop :=
  (t.layers.special = some (Kind.SKind SpecialKind.Corn) →
    t.layers.terrain = some (Kind.TKind TerrainKind.Plain) ∧ t.layers.feature = none) ∧
  (t.layers.special = some (Kind.SKind SpecialKind.Lumber) →
    t.layers.feature = some (Kind.FKind FeatureKind.Forest)) ∧
  (t.layers.special = some (Kind.SKind SpecialKind.Fish) →
    t.layers.feature = some (Kind.FKind FeatureKind.Ocean))

/-- Every tile's Special layer is consistent with its Terrain/Feature layers. -/
def SpecialsOk : Map → Prop := AllTiles SpecialConsistent

/-- Nothing is stored outside `[0, MAP_WIDTH] × [0, MAP_HEIGHT]`. -/
def OutNone (m : Map) : Prop :=
  ∀ k : Int × Int, (k.1 < 0 ∨ MAP_WIDTH < k.1 ∨ k.2 < 0 ∨ MAP_HEIGHT < k.2) → m k = none

/-- Every coordinate of `[0, MAP_WIDTH] × [0, MAP_HEIGHT]` has a tile. -/
def TotalIn (m : Map) : Prop :=
  ∀ k : Int × Int, 0 ≤ k.1 → k.1 ≤ MAP_WIDTH → 0 ≤ k.2 → k.2 ≤ MAP_HEIGHT →
    (m k).isSome = true

theorem OutNone.insert_in_range {m : Map} (hm : OutNone m) {k : Int × Int}
    (hk : 0 ≤ k.1 ∧ k.1 ≤ MAP_WIDTH ∧ 0 ≤ k.2 ∧ k.2 ≤ MAP_HEIGHT) (t : Tile) :
    OutNone (m.insert k t) := by
  intro k' hk'
  rw [Map.insert_lookup, if_neg ?hne]
  · exact hm k' hk'
  case hne =>
    intro he
    subst he
    obtain ⟨h1, h2, h3, h4⟩ := hk
    rcases hk' with h | h | h | h <;> omega

theorem TotalIn.insert_any {m : Map} (hm : TotalIn m) (k : Int × Int) (t : Tile) :
    TotalIn (m.insert k t) := by
  intro k' h1 h2 h3 h4
  rw [Map.insert_lookup]
  by_cases he : k' = k
  · rw [if_pos he]; rfl
  · rw [if_neg he]
    exact hm k' h1 h2 h3 h4

theorem unwrap_layers_eq_base (m : Map) (c : Int × Int) :
    (unwrap_tile (m c)).layers = base_layers m c := by
  unfold unwrap_tile base_layers
  cases m c <;> rfl

theorem base_layers_cases (m : Map) (c : Int × Int) :
    base_layers m c = TileLayers.empty ∨ ∃ t, m c = some t ∧ base_layers m c = t.layers := by
  unfold base_layers
  cases h : m c
  · left; rfl
  · right; exact ⟨_, rfl, rfl⟩

theorem patch_key_bounds (center : Int × Int) (w h : Int) :
    1 ≤ (patch_key center w h).1 ∧ (patch_key center w h).1 ≤ MAP_WIDTH - 1 ∧
    1 ≤ (patch_key center w h).2 ∧ (patch_key center w h).2 ≤ MAP_HEIGHT - 1 :=
  ⟨clampI_lb _ _ _ (by decide), clampI_ub _ _ _,
    clampI_lb _ _ _ (by decide), clampI_ub _ _ _⟩

/-- `update_tile_in_map` is an insert of the updated tile. -/
theorem update_tile_allTiles {Q : Tile → Prop} {m : Map} (hm : AllTiles Q m) (c : Int × Int)
    (tk : Option TerrainKind) (fk : Option FeatureKind) (sk : Option SpecialKind)
    (ht : Q { layers := upd_layers (base_layers m c) tk fk sk,
              real_coordinates := (c.1 * SPRITE_SIZE, c.2 * SPRITE_SIZE) }) :
    AllTiles Q (update_tile_in_map m c tk fk sk) :=
  AllTiles.insert_tile hm c ht

theorem apply_patch_cell_allTiles {Q : Tile → Prop} (hp : HeightOracle) (kind : Kind)
    (radius : Int) (fr ar : Nat) (center : Int × Int) (w h : Int) (st : Map × StdRng)
    (hm : AllTiles Q st.1)
    (hQ : (kind = Kind.FKind FeatureKind.Forest →
        (unwrap_tile (st.1 (patch_key center w h))).layers.get Layer.Terrain =
          some (Kind.TKind TerrainKind.Plain)) →
      Q (patch_tile st.1 kind (patch_key center w h))) :
    AllTiles Q ((apply_patch_cell hp kind radius fr ar center w h st).1) := by
  rcases apply_patch_cell_shape hp kind radius fr ar center w h st with he | ⟨he, hforest⟩
  · rw [he]; exact hm
  · rw [he]
    exact AllTiles.insert_tile hm _ (hQ hforest)

theorem apply_patch_cell_outNone (hp : HeightOracle) (kind : Kind) (radius : Int)
    (fr ar : Nat) (center : Int × Int) (w h : Int) (st : Map × StdRng)
    (hm : OutNone st.1) : OutNone ((apply_patch_cell hp kind radius fr ar center w h st).1) := by
  rcases apply_patch_cell_shape hp kind radius fr ar center w h st with he | ⟨he, _⟩
  · rw [he]; exact hm
  · rw [he]
    obtain ⟨h1, h2, h3, h4⟩ := patch_key_bounds center w h
    exact OutNone.insert_in_range hm ⟨by omega, by omega, by omega, by omega⟩ _

theorem apply_patch_cell_totalIn (hp : HeightOracle) (kind : Kind) (radius : Int)
    (fr ar : Nat) (center : Int × Int) (w h : Int) (st : Map × StdRng)
    (hm : TotalIn st.1) : TotalIn ((apply_patch_cell hp kind radius fr ar center w h st).1) := by
  rcases apply_patch_cell_shape hp kind radius fr ar center w h st with he | ⟨he, _⟩
  · rw [he]; exact hm
  · rw [he]
    exact TotalIn.insert_any hm _ _

/- Characterization of the initialization pass. -/

/-- The tile written at `k` by the initialization loop, in terms of the
previous entry at `k`. -/
def init_tile (o : Option Tile) (k : Int × Int) : Tile :=
  { layers := upd_layers (match o with | some t => t.layers | none => TileLayers.empty)
      (some TerrainKind.Plain) (some FeatureKind.Ocean) none,
    real_coordinates := (k.1 * SPRITE_SIZE, k.2 * SPRITE_SIZE) }

theorem init_h_fold (w : Int) :
    ∀ (hs : List Int), hs.Nodup → ∀ (m : Map) (k : Int × Int),
      (hs.foldl (fun acc2 h =>
          update_tile_in_map acc2 (w, h) (some TerrainKind.Plain) (some FeatureKind.Ocean) none)
        m) k =
        if k.1 = w ∧ k.2 ∈ hs then some (init_tile (m k) k) else m k := by
  intro hs
  induction hs with
  | nil =>
    intro _ m k
    simp
  | cons a t ih =>
    intro hnd m k
    rw [List.nodup_cons] at hnd
    rw [List.foldl_cons, ih hnd.2]
    by_cases h1 : k.1 = w ∧ k.2 ∈ t
    · rw [if_pos h1, if_pos ⟨h1.1, List.mem_cons_of_mem a h1.2⟩]
      have hne : k ≠ (w, a) := by
        intro he
        rw [he] at h1
        exact hnd.1 h1.2
      rw [update_tile_other m (w, a) k _ _ _ hne]
    · rw [if_neg h1]
      by_cases h2 : k = (w, a)
      · subst h2
        rw [update_tile_self, if_pos ⟨rfl, List.mem_cons_self a t⟩]
        rfl
      · have hcond : ¬(k.1 = w ∧ k.2 ∈ a :: t) := by
          rintro ⟨hkw, hmem⟩
          rcases List.mem_cons.mp hmem with hka | hkt
          · exact h2 (Prod.ext_iff.mpr ⟨hkw, hka⟩)
          · exact h1 ⟨hkw, hkt⟩
        rw [update_tile_other m (w, a) k _ _ _ h2, if_neg hcond]

theorem init_w_fold (hs : List Int) (hhs : hs.Nodup) :
    ∀ (ws : List Int), ws.Nodup → ∀ (m : Map) (k : Int × Int),
      (ws.foldl (fun acc w => hs.foldl (fun acc2 h =>
          update_tile_in_map acc2 (w, h) (some TerrainKind.Plain) (some FeatureKind.Ocean) none)
        acc) m) k =
        if k.1 ∈ ws ∧ k.2 ∈ hs then some (init_tile (m k) k) else m k := by
  intro ws
  induction ws with
  | nil =>
    intro _ m k
    simp
  | cons a t ih =>
    intro hnd m k
    rw [List.nodup_cons] at hnd
    rw [List.foldl_cons, ih hnd.2]
    by_cases h1 : k.1 ∈ t ∧ k.2 ∈ hs
    · rw [if_pos h1, if_pos ⟨List.mem_cons_of_mem a h1.1, h1.2⟩]
      have hne : k.1 ≠ a := fun he => hnd.1 (he ▸ h1.1)
      rw [init_h_fold a hs hhs m k, if_neg (fun hc => hne hc.1)]
    · rw [if_neg h1, init_h_fold a hs hhs m k]
      by_cases h2 : k.1 = a ∧ k.2 ∈ hs
      · rw [if_pos h2, if_pos ⟨List.mem_cons.mpr (Or.inl h2.1), h2.2⟩]
      · have hcond : ¬(k.1 ∈ a :: t ∧ k.2 ∈ hs) := by
          rintro ⟨hkw, hmem⟩
          rcases List.mem_cons.mp hkw with hka | hkt
          · exact h2 ⟨hka, hmem⟩
          · exact h1 ⟨hkt, hmem⟩
        rw [if_neg h2, if_neg hcond]

theorem init_pass_lookup (m : Map) (k : Int × Int) :
    init_pass m k =
      if (0 ≤ k.1 ∧ k.1 ≤ MAP_WIDTH) ∧ (0 ≤ k.2 ∧ k.2 ≤ MAP_HEIGHT)
      then some (init_tile (m k) k) else m k := by
  unfold init_pass
  rw [init_w_fold (int_range_icc 0 MAP_HEIGHT) (int_range_icc_nodup 0 MAP_HEIGHT)
    (int_range_icc 0 MAP_WIDTH) (int_range_icc_nodup 0 MAP_WIDTH) m k]
  by_cases h : (0 ≤ k.1 ∧ k.1 ≤ MAP_WIDTH) ∧ (0 ≤ k.2 ∧ k.2 ≤ MAP_HEIGHT)
  · rw [if_pos ⟨mem_int_range_icc.mpr h.1, mem_int_range_icc.mpr h.2⟩, if_pos h]
  · have hc : ¬(k.1 ∈ int_range_icc 0 MAP_WIDTH ∧ k.2 ∈ int_range_icc 0 MAP_HEIGHT) := by
      intro hc
      exact h ⟨mem_int_range_icc.mp hc.1, mem_int_range_icc.mp hc.2⟩
    rw [if_neg hc, if_neg h]

/- Small field computation lemmas. -/

theorem get_terrain (l : TileLayers) : l.get Layer.Terrain = l.terrain := rfl

theorem get_feature (l : TileLayers) : l.get Layer.Feature = l.feature := rfl

theorem get_special (l : TileLayers) : l.get Layer.Special = l.special := rfl

theorem patch_tile_tkind_terrain (m : Map) (tk : TerrainKind) (key : Int × Int) :
    (patch_tile m (Kind.TKind tk) key).layers.terrain = some (Kind.TKind tk) := rfl

theorem patch_tile_tkind_feature (m : Map) (tk : TerrainKind) (key : Int × Int) :
    (patch_tile m (Kind.TKind tk) key).layers.feature = none := rfl

theorem patch_tile_tkind_special (m : Map) (tk : TerrainKind) (key : Int × Int) :
    (patch_tile m (Kind.TKind tk) key).layers.special = (unwrap_tile (m key)).layers.special := rfl

theorem patch_tile_fkind_terrain (m : Map) (fk : FeatureKind) (key : Int × Int) :
    (patch_tile m (Kind.FKind fk) key).layers.terrain = (unwrap_tile (m key)).layers.terrain := rfl

theorem patch_tile_fkind_feature (m : Map) (fk : FeatureKind) (key : Int × Int) :
    (patch_tile m (Kind.FKind fk) key).layers.feature = some (Kind.FKind fk) := rfl

theorem patch_tile_fkind_special (m : Map) (fk : FeatureKind) (key : Int × Int) :
    (patch_tile m (Kind.FKind fk) key).layers.special = (unwrap_tile (m key)).layers.special := rfl

theorem unwrap_special_none {m : Map} (hm : NoSpecial m) (c : Int × Int) :
    (unwrap_tile (m c)).layers.special = none := by
  unfold unwrap_tile
  cases hkc : m c with
  | none => rfl
  | some t => exact hm c t hkc

theorem unwrap_feature_not_forest {m : Map} (hm : NoForest m) (c : Int × Int) :
    (unwrap_tile (m c)).layers.feature ≠ some (Kind.FKind FeatureKind.Forest) := by
  unfold unwrap_tile
  cases hkc : m c with
  | none =>
    intro h
    exact Option.noConfusion h
  | some t => exact hm c t hkc

theorem unwrap_forestPlain {m : Map} (hm : ForestPlain m) (c : Int × Int) :
    (unwrap_tile (m c)).layers.feature = some (Kind.FKind FeatureKind.Forest) →
    (unwrap_tile (m c)).layers.terrain = some (Kind.TKind TerrainKind.Plain) := by
  unfold unwrap_tile
  cases hkc : m c with
  | none =>
    intro h
    exact Option.noConfusion h
  | some t => exact hm c t hkc

/- Staged pipeline invariants. -/

/-- Invariant holding from initialization until the Forest pass begins. -/
def Inv2 (m : Map) : Prop := OutNone m ∧ TotalIn m ∧ NoForest m ∧ NoSpecial m

/-- Invariant holding from the Forest pass until the specials pass begins. -/
def Inv3 (m : Map) : Prop := OutNone m ∧ TotalIn m ∧ ForestPlain m ∧ NoSpecial m

/-- Invariant of the finished grid. -/
def Inv4 (m : Map) : Prop := OutNone m ∧ TotalIn m ∧ ForestPlain m ∧ SpecialsOk m

theorem NoForest.forestPlain {m : Map} (hm : NoForest m) : ForestPlain m :=
  fun k t hkt hf => absurd hf (hm k t hkt)

theorem NoSpecial.specialsOk {m : Map} (hm : NoSpecial m) : SpecialsOk m := by
  intro k t hkt
  have hs := hm k t hkt
  refine ⟨fun hx => ?_, fun hx => ?_, fun hx => ?_⟩ <;>
    (rw [hs] at hx; exact Option.noConfusion hx)

theorem Inv2.toInv3 {m : Map} (hm : Inv2 m) : Inv3 m :=
  ⟨hm.1, hm.2.1, hm.2.2.1.forestPlain, hm.2.2.2⟩

theorem Inv3.toInv4 {m : Map} (hm : Inv3 m) : Inv4 m :=
  ⟨hm.1, hm.2.1, hm.2.2.1, hm.2.2.2.specialsOk⟩

/- Per-cell invariant preservation. -/

theorem patch_cell_inv2 (hp : HeightOracle) (tk : TerrainKind) (radius : Int) (fr ar : Nat)
    (center : Int × Int) (w h : Int) (st : Map × StdRng) (hP : Inv2 st.1) :
    Inv2 ((apply_patch_cell hp (Kind.TKind tk) radius fr ar center w h st).1) := by
  obtain ⟨hO, hT, hF, hS⟩ := hP
  refine ⟨apply_patch_cell_outNone hp _ radius fr ar center w h st hO,
    apply_patch_cell_totalIn hp _ radius fr ar center w h st hT, ?_, ?_⟩
  · refine apply_patch_cell_allTiles hp _ radius fr ar center w h st hF (fun _ => ?_)
    intro hfe
    rw [patch_tile_tkind_feature] at hfe
    exact Option.noConfusion hfe
  · refine apply_patch_cell_allTiles hp _ radius fr ar center w h st hS (fun _ => ?_)
    rw [patch_tile_tkind_special]
    exact unwrap_special_none hS _

theorem patch_cell_inv3 (hp : HeightOracle) (fk : FeatureKind) (radius : Int) (fr ar : Nat)
    (center : Int × Int) (w h : Int) (st : Map × StdRng) (hP : Inv3 st.1) :
    Inv3 ((apply_patch_cell hp (Kind.FKind fk) radius fr ar center w h st).1) := by
  obtain ⟨hO, hT, hF, hS⟩ := hP
  refine ⟨apply_patch_cell_outNone hp _ radius fr ar center w h st hO,
    apply_patch_cell_totalIn hp _ radius fr ar center w h st hT, ?_, ?_⟩
  · refine apply_patch_cell_allTiles hp _ radius fr ar center w h st hF (fun hforest => ?_)
    intro hfe
    rw [patch_tile_fkind_feature] at hfe
    have hfk : fk = FeatureKind.Forest := by
      injection hfe with h1
      injection h1
    subst hfk
    rw [patch_tile_fkind_terrain]
    have hpl := hforest rfl
    rw [get_terrain] at hpl
    exact hpl
  · refine apply_patch_cell_allTiles hp _ radius fr ar center w h st hS (fun _ => ?_)
    rw [patch_tile_fkind_special]
    exact unwrap_special_none hS _

theorem desert_cell_inv2 (thickness w h : Int) (st : Map × StdRng)
    (hw1 : 0 ≤ w) (hw2 : w ≤ MAP_WIDTH) (hh1 : 0 ≤ h) (hh2 : h ≤ MAP_HEIGHT)
    (hP : Inv2 st.1) : Inv2 ((desert_cell thickness w h st).1) := by
  obtain ⟨hO, hT, hF, hS⟩ := hP
  rcases desert_cell_shape thickness w h st with he | he <;> rw [he]
  · exact ⟨hO, hT, hF, hS⟩
  · refine ⟨OutNone.insert_in_range hO ⟨hw1, hw2, hh1, hh2⟩ _, TotalIn.insert_any hT _ _, ?_, ?_⟩
    · refine update_tile_allTiles hF (w, h) _ _ _ ?_
      have hb := unwrap_feature_not_forest hF (w, h)
      rw [unwrap_layers_eq_base] at hb
      exact hb
    · refine update_tile_allTiles hS (w, h) _ _ _ ?_
      have hb := unwrap_special_none hS (w, h)
      rw [unwrap_layers_eq_base] at hb
      exact hb

theorem specials_cell_inv4 (bern : BernOracle) (w h : Int) (st : Map × StdRng)
    (hw1 : 0 ≤ w) (hw2 : w ≤ MAP_WIDTH) (hh1 : 0 ≤ h) (hh2 : h ≤ MAP_HEIGHT)
    (hP : Inv4 st.1) : Inv4 ((specials_cell bern w h st).1) := by
  obtain ⟨hO, hT, hF, hS⟩ := hP
  rcases specials_cell_shape bern w h st with he | ⟨s, he, hcorn, hlumber, hfish⟩ <;> rw [he]
  · exact ⟨hO, hT, hF, hS⟩
  · refine ⟨OutNone.insert_in_range hO ⟨hw1, hw2, hh1, hh2⟩ _, TotalIn.insert_any hT _ _, ?_, ?_⟩
    · refine update_tile_allTiles hF (w, h) _ _ _ ?_
      intro hfe
      have hb := unwrap_forestPlain hF (w, h)
      rw [unwrap_layers_eq_base] at hb
      exact hb hfe
    · refine update_tile_allTiles hS (w, h) _ _ _ ?_
      rw [unwrap_layers_eq_base] at hcorn hlumber hfish
      cases s with
      | Corn =>
        refine ⟨fun _ => ?_, fun hx => ?_, fun hx => ?_⟩
        · obtain ⟨hc1, hc2⟩ := hcorn rfl
          rw [get_terrain] at hc1
          rw [get_feature] at hc2
          exact ⟨hc1, hc2⟩
        · have hx' : some (Kind.SKind SpecialKind.Corn) = some (Kind.SKind SpecialKind.Lumber) := hx
          exact absurd hx' (by decide)
        · have hx' : some (Kind.SKind SpecialKind.Corn) = some (Kind.SKind SpecialKind.Fish) := hx
          exact absurd hx' (by decide)
      | Lumber =>
        refine ⟨fun hx => ?_, fun _ => ?_, fun hx => ?_⟩
        · have hx' : some (Kind.SKind SpecialKind.Lumber) = some (Kind.SKind SpecialKind.Corn) := hx
          exact absurd hx' (by decide)
        · have hc := hlumber rfl
          rw [get_feature] at hc
          exact hc
        · have hx' : some (Kind.SKind SpecialKind.Lumber) = some (Kind.SKind SpecialKind.Fish) := hx
          exact absurd hx' (by decide)
      | Fish =>
        refine ⟨fun hx => ?_, fun hx => ?_, fun _ => ?_⟩
        · have hx' : some (Kind.SKind SpecialKind.Fish) = some (Kind.SKind SpecialKind.Corn) := hx
          exact absurd hx' (by decide)
        · have hx' : some (Kind.SKind SpecialKind.Fish) = some (Kind.SKind SpecialKind.Lumber) := hx
          exact absurd hx' (by decide)
        · have hc := hfish rfl
          rw [get_feature] at hc
          exact hc

/- Pass-level preservation. -/

theorem apply_patch_preserves (P : Map → Prop) (hp : HeightOracle) (kind : Kind)
    (rLo rHi : Int) (center : Int × Int) (st : Map × StdRng)
    (hcell : ∀ (radius : Int) (fr ar : Nat) (w h : Int) (st2 : Map × StdRng),
      P st2.1 → P ((apply_patch_cell hp kind radius fr ar center w h st2).1))
    (hst : P st.1) : P ((apply_patch hp kind rLo rHi center st).1) := by
  unfold apply_patch
  dsimp only
  refine foldl_inv (fun (s : Map × StdRng) => P s.1) _ _ _ hst ?_
  intro b a _ hb
  exact foldl_inv (fun (s : Map × StdRng) => P s.1) _ _ _ hb (fun b' a' _ hb' => hcell _ _ _ _ _ b' hb')

theorem gmp_factoring (hp : HeightOracle) (rng : StdRng) (m : Map) (kind : Kind)
    (count rLo rHi : Int) :
    generate_multiple_patches hp rng m kind count rLo rHi =
    generate_multiple_patches_factored hp rng m kind count rLo rHi := rfl

theorem gmp_preserves (P : Map → Prop) (hp : HeightOracle) (rng : StdRng) (m : Map)
    (kind : Kind) (count rLo rHi : Int)
    (hcell : ∀ (radius : Int) (fr ar : Nat) (center : Int × Int) (w h : Int)
      (st2 : Map × StdRng),
      P st2.1 → P ((apply_patch_cell hp kind radius fr ar center w h st2).1))
    (hm : P m) : P ((generate_multiple_patches hp rng m kind count rLo rHi).1) := by
  rw [gmp_factoring]
  unfold generate_multiple_patches_factored
  dsimp only
  refine foldl_inv (fun (s : Map × StdRng) => P s.1) _ _ _ hm ?_
  intro b a _ hb
  exact apply_patch_preserves P hp kind rLo rHi a b
    (fun radius fr ar w h st2 h2 => hcell radius fr ar a w h st2 h2) hb

theorem desert_pass_preserves (P : Map → Prop) (thickness : Int) (st : Map × StdRng)
    (hcell : ∀ (w h : Int) (st2 : Map × StdRng),
      0 ≤ w → w ≤ MAP_WIDTH → 0 ≤ h → h ≤ MAP_HEIGHT →
      P st2.1 → P ((desert_cell thickness w h st2).1))
    (hst : P st.1) : P ((desert_pass thickness st).1) := by
  unfold desert_pass
  refine foldl_inv (fun (s : Map × StdRng) => P s.1) _ _ _ hst ?_
  intro b w hw hb
  refine foldl_inv (fun (s : Map × StdRng) => P s.1) _ _ _ hb ?_
  intro b' h' hh hb'
  obtain ⟨hw1, hw2⟩ := mem_int_range_icc.mp hw
  obtain ⟨hh1, hh2⟩ := mem_int_range_icc.mp hh
  exact hcell w h' b' hw1 hw2 hh1 hh2 hb'

theorem specials_pass_preserves (P : Map → Prop) (bern : BernOracle) (st : Map × StdRng)
    (hcell : ∀ (w h : Int) (st2 : Map × StdRng),
      0 ≤ w → w ≤ MAP_WIDTH → 0 ≤ h → h ≤ MAP_HEIGHT →
      P st2.1 → P ((specials_cell bern w h st2).1))
    (hst : P st.1) : P ((specials_pass bern st).1) := by
  unfold specials_pass
  refine foldl_inv (fun (s : Map × StdRng) => P s.1) _ _ _ hst ?_
  intro b w hw hb
  refine foldl_inv (fun (s : Map × StdRng) => P s.1) _ _ _ hb ?_
  intro b' h' hh hb'
  obtain ⟨hw1, hw2⟩ := mem_int_range_icc.mp hw
  obtain ⟨hh1, hh2⟩ := mem_int_range_icc.mp hh
  exact hcell w h' b' hw1 hw2 hh1 hh2 hb'

/- Stage lemmas and the pipeline invariant. -/

theorem init_tile_none_layers (k : Int × Int) :
    (init_tile none k).layers =
      ⟨some (Kind.TKind TerrainKind.Plain), some (Kind.FKind FeatureKind.Ocean), none⟩ := rfl

theorem init_pass_inv2 : Inv2 (init_pass (fun _ => none)) := by
  refine ⟨?_, ?_, ?_, ?_⟩
  · intro k hk
    have hc : ¬((0 ≤ k.1 ∧ k.1 ≤ MAP_WIDTH) ∧ (0 ≤ k.2 ∧ k.2 ≤ MAP_HEIGHT)) := by
      rintro ⟨⟨a1, a2⟩, b1, b2⟩
      rcases hk with hx | hx | hx | hx <;> omega
    rw [init_pass_lookup, if_neg hc]
  · intro k h1 h2 h3 h4
    rw [init_pass_lookup, if_pos ⟨⟨h1, h2⟩, h3, h4⟩]
    rfl
  · intro k t hkt
    rw [init_pass_lookup] at hkt
    by_cases hc : (0 ≤ k.1 ∧ k.1 ≤ MAP_WIDTH) ∧ (0 ≤ k.2 ∧ k.2 ≤ MAP_HEIGHT)
    · rw [if_pos hc] at hkt
      injection hkt with ht
      subst ht
      intro hfe
      rw [init_tile_none_layers] at hfe
      exact absurd hfe (by decide)
    · rw [if_neg hc] at hkt
      exact Option.noConfusion hkt
  · intro k t hkt
    rw [init_pass_lookup] at hkt
    by_cases hc : (0 ≤ k.1 ∧ k.1 ≤ MAP_WIDTH) ∧ (0 ≤ k.2 ∧ k.2 ≤ MAP_HEIGHT)
    · rw [if_pos hc] at hkt
      injection hkt with ht
      subst ht
      rw [init_tile_none_layers]
    · rw [if_neg hc] at hkt
      exact Option.noConfusion hkt

theorem gmp_inv2 (hp : HeightOracle) (rng : StdRng) (m : Map) (tk : TerrainKind)
    (count rLo rHi : Int) (hm : Inv2 m) :
    Inv2 ((generate_multiple_patches hp rng m (Kind.TKind tk) count rLo rHi).1) :=
  gmp_preserves Inv2 hp rng m _ count rLo rHi
    (fun radius fr ar center w h st2 => patch_cell_inv2 hp tk radius fr ar center w h st2) hm

theorem gmp_inv3 (hp : HeightOracle) (rng : StdRng) (m : Map) (fk : FeatureKind)
    (count rLo rHi : Int) (hm : Inv3 m) :
    Inv3 ((generate_multiple_patches hp rng m (Kind.FKind fk) count rLo rHi).1) :=
  gmp_preserves Inv3 hp rng m _ count rLo rHi
    (fun radius fr ar center w h st2 => patch_cell_inv3 hp fk radius fr ar center w h st2) hm

theorem desert_pass_inv2 (thickness : Int) (m : Map) (r : StdRng) (hm : Inv2 m) :
    Inv2 ((desert_pass thickness (m, r)).1) :=
  desert_pass_preserves Inv2 thickness (m, r)
    (fun w h st2 hw1 hw2 hh1 hh2 => desert_cell_inv2 thickness w h st2 hw1 hw2 hh1 hh2) hm

theorem specials_pass_inv4 (bern : BernOracle) (m : Map) (r : StdRng) (hm : Inv4 m) :
    Inv4 ((specials_pass bern (m, r)).1) :=
  specials_pass_preserves Inv4 bern (m, r)
    (fun w h st2 hw1 hw2 hh1 hh2 => specials_cell_inv4 bern w h st2 hw1 hw2 hh1 hh2) hm

/-- The pipeline invariant of `build_map`: bounds, totality, the Forest
invariant and the specials consistency all hold of the finished grid. -/
theorem map_component_eq (st : Map × StdRng) : map_component st = st.1 := rfl

theorem build_map_inv (hp : HeightOracle) (bern : BernOracle) (rng : StdRng) :
    Inv4 (build_map hp bern rng) := by
  unfold build_map
  show Inv4 (map_component (specials_pass bern ((generate_multiple_patches hp (generate_multiple_patches hp (generate_multiple_patches hp (desert_pass (gen_range_int (generate_multiple_patches hp (gen_range_int rng 0 (2 ^ 64 - 1)).2 (init_pass (fun _ => none)) (Kind.TKind TerrainKind.Plain) 8 5 25).2 (5 * MAP_HEIGHT / 100) (10 * MAP_HEIGHT / 100)).1 ((generate_multiple_patches hp (gen_range_int rng 0 (2 ^ 64 - 1)).2 (init_pass (fun _ => none)) (Kind.TKind TerrainKind.Plain) 8 5 25).1, (gen_range_int (generate_multiple_patches hp (gen_range_int rng 0 (2 ^ 64 - 1)).2 (init_pass (fun _ => none)) (Kind.TKind TerrainKind.Plain) 8 5 25).2 (5 * MAP_HEIGHT / 100) (10 * MAP_HEIGHT / 100)).2)).2 (desert_pass (gen_range_int (generate_multiple_patches hp (gen_range_int rng 0 (2 ^ 64 - 1)).2 (init_pass (fun _ => none)) (Kind.TKind TerrainKind.Plain) 8 5 25).2 (5 * MAP_HEIGHT / 100) (10 * MAP_HEIGHT / 100)).1 ((generate_multiple_patches hp (gen_range_int rng 0 (2 ^ 64 - 1)).2 (init_pass (fun _ => none)) (Kind.TKind TerrainKind.Plain) 8 5 25).1, (gen_range_int (generate_multiple_patches hp (gen_range_int rng 0 (2 ^ 64 - 1)).2 (init_pass (fun _ => none)) (Kind.TKind TerrainKind.Plain) 8 5 25).2 (5 * MAP_HEIGHT / 100) (10 * MAP_HEIGHT / 100)).2)).1 (Kind.FKind FeatureKind.Forest) 15 1 3).2 (generate_multiple_patches hp (desert_pass (gen_range_int (generate_multiple_patches hp (gen_range_int rng 0 (2 ^ 64 - 1)).2 (init_pass (fun _ => none)) (Kind.TKind TerrainKind.Plain) 8 5 25).2 (5 * MAP_HEIGHT / 100) (10 * MAP_HEIGHT / 100)).1 ((generate_multiple_patches hp (gen_range_int rng 0 (2 ^ 64 - 1)).2 (init_pass (fun _ => none)) (Kind.TKind TerrainKind.Plain) 8 5 25).1, (gen_range_int (generate_multiple_patches hp (gen_range_int rng 0 (2 ^ 64 - 1)).2 (init_pass (fun _ => none)) (Kind.TKind TerrainKind.Plain) 8 5 25).2 (5 * MAP_HEIGHT / 100) (10 * MAP_HEIGHT / 100)).2)).2 (desert_pass (gen_range_int (generate_multiple_patches hp (gen_range_int rng 0 (2 ^ 64 - 1)).2 (init_pass (fun _ => none)) (Kind.TKind TerrainKind.Plain) 8 5 25).2 (5 * MAP_HEIGHT / 100) (10 * MAP_HEIGHT / 100)).1 ((generate_multiple_patches hp (gen_range_int rng 0 (2 ^ 64 - 1)).2 (init_pass (fun _ => none)) (Kind.TKind TerrainKind.Plain) 8 5 25).1, (gen_range_int (generate_multiple_patches hp (gen_range_int rng 0 (2 ^ 64 - 1)).2 (init_pass (fun _ => none)) (Kind.TKind TerrainKind.Plain) 8 5 25).2 (5 * MAP_HEIGHT / 100) (10 * MAP_HEIGHT / 100)).2)).1 (Kind.FKind FeatureKind.Forest) 15 1 3).1 (Kind.FKind FeatureKind.Hill) 10 3 5).2 (generate_multiple_patches hp (generate_multiple_patches hp (desert_pass (gen_range_int (generate_multiple_patches hp (gen_range_int rng 0 (2 ^ 64 - 1)).2 (init_pass (fun _ => none)) (Kind.TKind TerrainKind.Plain) 8 5 25).2 (5 * MAP_HEIGHT / 100) (10 * MAP_HEIGHT / 100)).1 ((generate_multiple_patches hp (gen_range_int rng 0 (2 ^ 64 - 1)).2 (init_pass (fun _ => none)) (Kind.TKind TerrainKind.Plain) 8 5 25).1, (gen_range_int (generate_multiple_patches hp (gen_range_int rng 0 (2 ^ 64 - 1)).2 (init_pass (fun _ => none)) (Kind.TKind TerrainKind.Plain) 8 5 25).2 (5 * MAP_HEIGHT / 100) (10 * MAP_HEIGHT / 100)).2)).2 (desert_pass (gen_range_int (generate_multiple_patches hp (gen_range_int rng 0 (2 ^ 64 - 1)).2 (init_pass (fun _ => none)) (Kind.TKind TerrainKind.Plain) 8 5 25).2 (5 * MAP_HEIGHT / 100) (10 * MAP_HEIGHT / 100)).1 ((generate_multiple_patches hp (gen_range_int rng 0 (2 ^ 64 - 1)).2 (init_pass (fun _ => none)) (Kind.TKind TerrainKind.Plain) 8 5 25).1, (gen_range_int (generate_multiple_patches hp (gen_range_int rng 0 (2 ^ 64 - 1)).2 (init_pass (fun _ => none)) (Kind.TKind TerrainKind.Plain) 8 5 25).2 (5 * MAP_HEIGHT / 100) (10 * MAP_HEIGHT / 100)).2)).1 (Kind.FKind FeatureKind.Forest) 15 1 3).2 (generate_multiple_patches hp (desert_pass (gen_range_int (generate_multiple_patches hp (gen_range_int rng 0 (2 ^ 64 - 1)).2 (init_pass (fun _ => none)) (Kind.TKind TerrainKind.Plain) 8 5 25).2 (5 * MAP_HEIGHT / 100) (10 * MAP_HEIGHT / 100)).1 ((generate_multiple_patches hp (gen_range_int rng 0 (2 ^ 64 - 1)).2 (init_pass (fun _ => none)) (Kind.TKind TerrainKind.Plain) 8 5 25).1, (gen_range_int (generate_multiple_patches hp (gen_range_int rng 0 (2 ^ 64 - 1)).2 (init_pass (fun _ => none)) (Kind.TKind TerrainKind.Plain) 8 5 25).2 (5 * MAP_HEIGHT / 100) (10 * MAP_HEIGHT / 100)).2)).2 (desert_pass (gen_range_int (generate_multiple_patches hp (gen_range_int rng 0 (2 ^ 64 - 1)).2 (init_pass (fun _ => none)) (Kind.TKind TerrainKind.Plain) 8 5 25).2 (5 * MAP_HEIGHT / 100) (10 * MAP_HEIGHT / 100)).1 ((generate_multiple_patches hp (gen_range_int rng 0 (2 ^ 64 - 1)).2 (init_pass (fun _ => none)) (Kind.TKind TerrainKind.Plain) 8 5 25).1, (gen_range_int (generate_multiple_patches hp (gen_range_int rng 0 (2 ^ 64 - 1)).2 (init_pass (fun _ => none)) (Kind.TKind TerrainKind.Plain) 8 5 25).2 (5 * MAP_HEIGHT / 100) (10 * MAP_HEIGHT / 100)).2)).1 (Kind.FKind FeatureKind.Forest) 15 1 3).1 (Kind.FKind FeatureKind.Hill) 10 3 5).1 (Kind.FKind FeatureKind.Mountain) 10 2 4).1, (generate_multiple_patches hp (generate_multiple_patches hp (generate_multiple_patches hp (desert_pass (gen_range_int (generate_multiple_patches hp (gen_range_int rng 0 (2 ^ 64 - 1)).2 (init_pass (fun _ => none)) (Kind.TKind TerrainKind.Plain) 8 5 25).2 (5 * MAP_HEIGHT / 100) (10 * MAP_HEIGHT / 100)).1 ((generate_multiple_patches hp (gen_range_int rng 0 (2 ^ 64 - 1)).2 (init_pass (fun _ => none)) (Kind.TKind TerrainKind.Plain) 8 5 25).1, (gen_range_int (generate_multiple_patches hp (gen_range_int rng 0 (2 ^ 64 - 1)).2 (init_pass (fun _ => none)) (Kind.TKind TerrainKind.Plain) 8 5 25).2 (5 * MAP_HEIGHT / 100) (10 * MAP_HEIGHT / 100)).2)).2 (desert_pass (gen_range_int (generate_multiple_patches hp (gen_range_int rng 0 (2 ^ 64 - 1)).2 (init_pass (fun _ => none)) (Kind.TKind TerrainKind.Plain) 8 5 25).2 (5 * MAP_HEIGHT / 100) (10 * MAP_HEIGHT / 100)).1 ((generate_multiple_patches hp (gen_range_int rng 0 (2 ^ 64 - 1)).2 (init_pass (fun _ => none)) (Kind.TKind TerrainKind.Plain) 8 5 25).1, (gen_range_int (generate_multiple_patches hp (gen_range_int rng 0 (2 ^ 64 - 1)).2 (init_pass (fun _ => none)) (Kind.TKind TerrainKind.Plain) 8 5 25).2 (5 * MAP_HEIGHT / 100) (10 * MAP_HEIGHT / 100)).2)).1 (Kind.FKind FeatureKind.Forest) 15 1 3).2 (generate_multiple_patches hp (desert_pass (gen_range_int (generate_multiple_patches hp (gen_range_int rng 0 (2 ^ 64 - 1)).2 (init_pass (fun _ => none)) (Kind.TKind TerrainKind.Plain) 8 5 25).2 (5 * MAP_HEIGHT / 100) (10 * MAP_HEIGHT / 100)).1 ((generate_multiple_patches hp (gen_range_int rng 0 (2 ^ 64 - 1)).2 (init_pass (fun _ => none)) (Kind.TKind TerrainKind.Plain) 8 5 25).1, (gen_range_int (generate_multiple_patches hp (gen_range_int rng 0 (2 ^ 64 - 1)).2 (init_pass (fun _ => none)) (Kind.TKind TerrainKind.Plain) 8 5 25).2 (5 * MAP_HEIGHT / 100) (10 * MAP_HEIGHT / 100)).2)).2 (desert_pass (gen_range_int (generate_multiple_patches hp (gen_range_int rng 0 (2 ^ 64 - 1)).2 (init_pass (fun _ => none)) (Kind.TKind TerrainKind.Plain) 8 5 25).2 (5 * MAP_HEIGHT / 100) (10 * MAP_HEIGHT / 100)).1 ((generate_multiple_patches hp (gen_range_int rng 0 (2 ^ 64 - 1)).2 (init_pass (fun _ => none)) (Kind.TKind TerrainKind.Plain) 8 5 25).1, (gen_range_int (generate_multiple_patches hp (gen_range_int rng 0 (2 ^ 64 - 1)).2 (init_pass (fun _ => none)) (Kind.TKind TerrainKind.Plain) 8 5 25).2 (5 * MAP_HEIGHT / 100) (10 * MAP_HEIGHT / 100)).2)).1 (Kind.FKind FeatureKind.Forest) 15 1 3).1 (Kind.FKind FeatureKind.Hill) 10 3 5).2 (generate_multiple_patches hp (generate_multiple_patches hp (desert_pass (gen_range_int (generate_multiple_patches hp (gen_range_int rng 0 (2 ^ 64 - 1)).2 (init_pass (fun _ => none)) (Kind.TKind TerrainKind.Plain) 8 5 25).2 (5 * MAP_HEIGHT / 100) (10 * MAP_HEIGHT / 100)).1 ((generate_multiple_patches hp (gen_range_int rng 0 (2 ^ 64 - 1)).2 (init_pass (fun _ => none)) (Kind.TKind TerrainKind.Plain) 8 5 25).1, (gen_range_int (generate_multiple_patches hp (gen_range_int rng 0 (2 ^ 64 - 1)).2 (init_pass (fun _ => none)) (Kind.TKind TerrainKind.Plain) 8 5 25).2 (5 * MAP_HEIGHT / 100) (10 * MAP_HEIGHT / 100)).2)).2 (desert_pass (gen_range_int (generate_multiple_patches hp (gen_range_int rng 0 (2 ^ 64 - 1)).2 (init_pass (fun _ => none)) (Kind.TKind TerrainKind.Plain) 8 5 25).2 (5 * MAP_HEIGHT / 100) (10 * MAP_HEIGHT / 100)).1 ((generate_multiple_patches hp (gen_range_int rng 0 (2 ^ 64 - 1)).2 (init_pass (fun _ => none)) (Kind.TKind TerrainKind.Plain) 8 5 25).1, (gen_range_int (generate_multiple_patches hp (gen_range_int rng 0 (2 ^ 64 - 1)).2 (init_pass (fun _ => none)) (Kind.TKind TerrainKind.Plain) 8 5 25).2 (5 * MAP_HEIGHT / 100) (10 * MAP_HEIGHT / 100)).2)).1 (Kind.FKind FeatureKind.Forest) 15 1 3).2 (generate_multiple_patches hp (desert_pass (gen_range_int (generate_multiple_patches hp (gen_range_int rng 0 (2 ^ 64 - 1)).2 (init_pass (fun _ => none)) (Kind.TKind TerrainKind.Plain) 8 5 25).2 (5 * MAP_HEIGHT / 100) (10 * MAP_HEIGHT / 100)).1 ((generate_multiple_patches hp (gen_range_int rng 0 (2 ^ 64 - 1)).2 (init_pass (fun _ => none)) (Kind.TKind TerrainKind.Plain) 8 5 25).1, (gen_range_int (generate_multiple_patches hp (gen_range_int rng 0 (2 ^ 64 - 1)).2 (init_pass (fun _ => none)) (Kind.TKind TerrainKind.Plain) 8 5 25).2 (5 * MAP_HEIGHT / 100) (10 * MAP_HEIGHT / 100)).2)).2 (desert_pass (gen_range_int (generate_multiple_patches hp (gen_range_int rng 0 (2 ^ 64 - 1)).2 (init_pass (fun _ => none)) (Kind.TKind TerrainKind.Plain) 8 5 25).2 (5 * MAP_HEIGHT / 100) (10 * MAP_HEIGHT / 100)).1 ((generate_multiple_patches hp (gen_range_int rng 0 (2 ^ 64 - 1)).2 (init_pass (fun _ => none)) (Kind.TKind TerrainKind.Plain) 8 5 25).1, (gen_range_int (generate_multiple_patches hp (gen_range_int rng 0 (2 ^ 64 - 1)).2 (init_pass (fun _ => none)) (Kind.TKind TerrainKind.Plain) 8 5 25).2 (5 * MAP_HEIGHT / 100) (10 * MAP_HEIGHT / 100)).2)).1 (Kind.FKind FeatureKind.Forest) 15 1 3).1 (Kind.FKind FeatureKind.Hill) 10 3 5).1 (Kind.FKind FeatureKind.Mountain) 10 2 4).2)))
  rw [map_component_eq]
  exact specials_pass_inv4 bern _ _
    ((gmp_inv3 hp _ _ FeatureKind.Mountain 10 2 4
      (gmp_inv3 hp _ _ FeatureKind.Hill 10 3 5
        (gmp_inv3 hp _ _ FeatureKind.Forest 15 1 3
          ((desert_pass_inv2 _ _ _
            (gmp_inv2 hp _ _ TerrainKind.Plain 8 5 25 init_pass_inv2)).toInv3)))).toInv4)

/- Decidable per-tile invariants used in the claim statements. -/

/-- Boolean form of the Forest invariant on an optional grid entry. -/
def forest_inv (o : Option Tile) : Bool :=
  match o with
  | none => true
  | some t =>
    decide (t.layers.feature = some (Kind.FKind FeatureKind.Forest) →
      t.layers.terrain = some (Kind.TKind TerrainKind.Plain))

/-- Boolean form of the specials-consistency invariant on an optional grid
entry. -/
def special_inv (o : Option Tile) : Bool :=
  match o with
  | none => true
  | some t =>
    decide ((t.layers.special = some (Kind.SKind SpecialKind.Corn) →
        t.layers.terrain = some (Kind.TKind TerrainKind.Plain) ∧ t.layers.feature = none) ∧
      (t.layers.special = some (Kind.SKind SpecialKind.Lumber) →
        t.layers.feature = some (Kind.FKind FeatureKind.Forest)) ∧
      (t.layers.special = some (Kind.SKind SpecialKind.Fish) →
        t.layers.feature = some (Kind.FKind FeatureKind.Ocean)))

/-- C1: determinism of generation.  `build_map` is a pure function of the PRNG
state (and of the deterministic float oracles), so two runs from equal states
produce identical grids: the same mapping of coordinates to tiles, hence the
same coordinate set, the same Layer-to-Kind entries and the same render-space
positions at every coordinate. -/
theorem c1_determinism (hp : HeightOracle) (bern : BernOracle) (r₁ r₂ : StdRng)
    (k : Int × Int) (h : r₁ = r₂) :
    build_map hp bern r₁ = build_map hp bern r₂ ∧
    build_map hp bern r₁ k = build_map hp bern r₂ k := by
  subst h
  exact ⟨rfl, rfl⟩

theorem c1_determinism_witness :
    build_map hp_false bern_false rng_zero = build_map hp_false bern_false rng_zero ∧
    build_map hp_false bern_false rng_zero (0, 0) = build_map hp_false bern_false rng_zero (0, 0) :=
  c1_determinism hp_false bern_false rng_zero rng_zero (0, 0) rfl

/-- C2 counterexample: the grid produced by `build_map` contains the
coordinate `(MAP_WIDTH, MAP_HEIGHT) = (200, 200)` (the initialization loops
are inclusive), which does not lie in `[0, MAP_WIDTH) × [0, MAP_HEIGHT)`. -/
theorem c2_bounds_counterexample :
    ((build_map hp_false bern_false rng_zero) (MAP_WIDTH, MAP_HEIGHT)).isSome = true ∧
    ¬(MAP_WIDTH < MAP_WIDTH ∧ MAP_HEIGHT < MAP_HEIGHT) := by
  constructor
  · exact (build_map_inv hp_false bern_false rng_zero).2.1 (MAP_WIDTH, MAP_HEIGHT)
      (by decide) (by decide) (by decide) (by decide)
  · decide

/-- C2 (amended): after generation every coordinate present in the grid lies
in the inclusive rectangle `[0, MAP_WIDTH] × [0, MAP_HEIGHT]`: any coordinate
outside it has no entry. -/
theorem c2_bounds (hp : HeightOracle) (bern : BernOracle) (rng : StdRng) (k : Int × Int)
    (h : k.1 < 0 ∨ MAP_WIDTH < k.1 ∨ k.2 < 0 ∨ MAP_HEIGHT < k.2) :
    build_map hp bern rng k = none :=
  (build_map_inv hp bern rng).1 k h

theorem c2_bounds_witness : build_map hp_false bern_false rng_zero (MAP_WIDTH + 1, 0) = none :=
  c2_bounds hp_false bern_false rng_zero (MAP_WIDTH + 1, 0) (by decide)

/-- C3 counterexample: a patch cell whose target coordinate
`center + (w, h) = (-3, -3)` is outside the grid bounds is not skipped: the
write lands at the clamped coordinate `(1, 1)` and changes the grid there. -/
theorem c3_oob_counterexample :
    ¬(0 ≤ (0 : Int) + (-3) ∧ (0 : Int) + (-3) < MAP_WIDTH ∧
      0 ≤ (0 : Int) + (-3) ∧ (0 : Int) + (-3) < MAP_HEIGHT) ∧
    (apply_patch_cell hp_true (Kind.TKind TerrainKind.Plain) 5 0 0 (0, 0) (-3) (-3)
      (plain_ocean_map, rng_zero)).1 (1, 1) ≠ plain_ocean_map (1, 1) := by
  constructor
  · decide
  · decide

/-- C3 (amended): each cell offset of a patch is written (if eligible) at the
coordinate clamped componentwise into `[1, MAP_WIDTH-1] × [1, MAP_HEIGHT-1]`;
no error is raised, and a cell offset never modifies any grid entry other than
its clamped key (so out-of-bounds offsets write onto the border instead of
being skipped, and a border cell can receive several writes in one patch). -/
theorem c3_clamped (hp : HeightOracle) (kind : Kind) (radius : Int) (fr ar : Nat)
    (center : Int × Int) (w h : Int) (st : Map × StdRng) (k' : Int × Int)
    (hk : k' ≠ patch_key center w h) :
    (1 ≤ (patch_key center w h).1 ∧ (patch_key center w h).1 ≤ MAP_WIDTH - 1 ∧
      1 ≤ (patch_key center w h).2 ∧ (patch_key center w h).2 ≤ MAP_HEIGHT - 1) ∧
    (apply_patch_cell hp kind radius fr ar center w h st).1 k' = st.1 k' := by
  refine ⟨patch_key_bounds center w h, ?_⟩
  rcases apply_patch_cell_shape hp kind radius fr ar center w h st with he | ⟨he, _⟩
  · rw [he]
  · rw [he, Map.insert_other _ _ _ _ hk]

theorem c3_clamped_witness :
    (1 ≤ (patch_key (0, 0) (-3) (-3)).1 ∧ (patch_key (0, 0) (-3) (-3)).1 ≤ MAP_WIDTH - 1 ∧
      1 ≤ (patch_key (0, 0) (-3) (-3)).2 ∧ (patch_key (0, 0) (-3) (-3)).2 ≤ MAP_HEIGHT - 1) ∧
    (apply_patch_cell hp_true (Kind.TKind TerrainKind.Plain) 5 0 0 (0, 0) (-3) (-3)
      (plain_ocean_map, rng_zero)).1 (7, 7) = plain_ocean_map (7, 7) :=
  c3_clamped hp_true (Kind.TKind TerrainKind.Plain) 5 0 0 (0, 0) (-3) (-3)
    (plain_ocean_map, rng_zero) (7, 7) (by decide)

/-- C4 counterexample: the desert-band pass writes Terrain through
`update_tile_in_map`, and such a write onto a cell holding the Ocean Feature
keeps that Feature: the resulting tile is Desert terrain with Ocean feature. -/
theorem c4_overwrite_counterexample :
    (update_tile_in_map plain_ocean_map (0, 0) (some TerrainKind.Desert) none none) (0, 0) =
      some ⟨⟨some (Kind.TKind TerrainKind.Desert), some (Kind.FKind FeatureKind.Ocean), none⟩,
        (0, 0)⟩ ∧
    (some (Kind.FKind FeatureKind.Ocean) : Option Kind) ≠ none := by
  constructor
  · decide
  · decide

/-- C4 (amended): a Terrain write performed by a patch pass
(`apply_patch_cell`) removes the written cell's Feature entry, but a Terrain
write performed through `update_tile_in_map` (the initialization and
desert-band passes) preserves the cell's existing Feature entry unchanged. -/
theorem c4_terrain_write_feature (hp : HeightOracle) (tk : TerrainKind) (radius : Int)
    (fr ar : Nat) (center : Int × Int) (w h : Int) (st : Map × StdRng)
    (m : Map) (c : Int × Int) (tk' : TerrainKind) :
    ((apply_patch_cell hp (Kind.TKind tk) radius fr ar center w h st).1 = st.1 ∨
      ((apply_patch_cell hp (Kind.TKind tk) radius fr ar center w h st).1
          (patch_key center w h)).map (fun t => t.layers.feature) = some none) ∧
    ((update_tile_in_map m c (some tk') none none) c).map (fun t => t.layers.feature) =
      some (base_layers m c).feature := by
  constructor
  · rcases apply_patch_cell_shape hp (Kind.TKind tk) radius fr ar center w h st with he | ⟨he, _⟩
    · exact Or.inl he
    · right
      rw [he, Map.insert_self]
      simp only [Option.map_some']
      rw [patch_tile_tkind_feature]
  · rw [update_tile_self]
    simp only [Option.map_some']
    rfl

/-- C5: a Forest Feature write is applied only where the current Terrain at
the (clamped) target cell is Plain — otherwise the cell is left unchanged —
and in every grid produced by `build_map` a tile whose Feature is Forest has
Plain Terrain. -/
theorem c5_forest (hp : HeightOracle) (radius : Int) (fr ar : Nat) (center : Int × Int)
    (w h : Int) (st : Map × StdRng) (bern : BernOracle) (rng : StdRng) (k : Int × Int) :
    ((apply_patch_cell hp (Kind.FKind FeatureKind.Forest) radius fr ar center w h st).1 = st.1 ∨
      (unwrap_tile (st.1 (patch_key center w h))).layers.get Layer.Terrain =
        some (Kind.TKind TerrainKind.Plain)) ∧
    forest_inv (build_map hp bern rng k) = true := by
  constructor
  · rcases apply_patch_cell_shape hp (Kind.FKind FeatureKind.Forest) radius fr ar center w h st
      with he | ⟨_, hf⟩
    · exact Or.inl he
    · exact Or.inr (hf rfl)
  · have hm := (build_map_inv hp bern rng).2.2.1
    generalize hkt : build_map hp bern rng k = o
    cases o with
    | none => rfl
    | some t => exact decide_eq_true (hm k t hkt)

/-- C6: in the autotiler, a neighbor missing from the grid (map edge) defaults
to the queried tile itself, so its Kind on the queried layer equals the cell's
own Kind and the neighbor-match bit computed from it is `true`. -/
theorem c6_edge_default (tile : Tile) (m : Map) (c : Int × Int) (layer : Layer)
    (dx dy : Int) (h : m (c.1 + dx, c.2 + dy) = none) :
    neighbor_kind tile m c layer dx dy = get_kind_of_tile_layer tile layer ∧
    decide (neighbor_kind tile m c layer dx dy = get_kind_of_tile_layer tile layer) = true := by
  have he : neighbor_kind tile m c layer dx dy = get_kind_of_tile_layer tile layer := by
    unfold neighbor_kind
    rw [h]
    rfl
  exact ⟨he, decide_eq_true he⟩

theorem c6_edge_default_witness :
    neighbor_kind tile_plain (fun _ => none) (0, 0) Layer.Terrain 1 0 =
      get_kind_of_tile_layer tile_plain Layer.Terrain ∧
    decide (neighbor_kind tile_plain (fun _ => none) (0, 0) Layer.Terrain 1 0 =
      get_kind_of_tile_layer tile_plain Layer.Terrain) = true :=
  c6_edge_default tile_plain (fun _ => none) (0, 0) Layer.Terrain 1 0 rfl

/-- C7 counterexample: an all-mismatch neighbor pattern (isolated Plain cell
surrounded by Desert) falls through to the default row, which returns variant
24 with the top neighbor's kind as background — `some Desert`, not `none`. -/
theorem c7_fallback_counterexample :
    get_tiles_to_display tile_plain map_desert_ring (0, 0) Layer.Terrain =
      (24, some (Kind.TKind TerrainKind.Desert)) ∧
    (some (Kind.TKind TerrainKind.Desert) : Option Kind) ≠ none := by
  constructor
  · decide
  · decide

/-- C7 (amended): the resolver is total — every of the 256 neighbor patterns
resolves — and a pattern matched by none of the 46 specific ordered rules
resolves to variant 24 with the top neighbor's kind (an `Option Kind` that may
well be `some`) as the background. -/
theorem c7_fallback (b₁ b₂ b₃ b₄ b₅ b₆ b₇ b₈ : Bool)
    (tl t tr l r bl b br : Option Kind)
    (h : some_rule_matches (b₁, b₂, b₃, b₄, b₅, b₆, b₇, b₈) = false) :
    resolve_pattern (b₁, b₂, b₃, b₄, b₅, b₆, b₇, b₈) tl t tr l r bl b br = (24, t) := by
  revert h
  cases b₁ <;> cases b₂ <;> cases b₃ <;> cases b₄ <;> cases b₅ <;> cases b₆ <;> cases b₇ <;>
    cases b₈ <;> intro h <;> first | rfl | exact Bool.noConfusion h

theorem c7_fallback_witness :
    resolve_pattern (false, false, false, false, false, false, false, false)
      (some (Kind.TKind TerrainKind.Desert)) (some (Kind.TKind TerrainKind.Desert))
      (some (Kind.TKind TerrainKind.Desert)) (some (Kind.TKind TerrainKind.Desert))
      (some (Kind.TKind TerrainKind.Desert)) (some (Kind.TKind TerrainKind.Desert))
      (some (Kind.TKind TerrainKind.Desert)) (some (Kind.TKind TerrainKind.Desert)) =
      (24, some (Kind.TKind TerrainKind.Desert)) :=
  c7_fallback false false false false false false false false
    (some (Kind.TKind TerrainKind.Desert)) (some (Kind.TKind TerrainKind.Desert))
    (some (Kind.TKind TerrainKind.Desert)) (some (Kind.TKind TerrainKind.Desert))
    (some (Kind.TKind TerrainKind.Desert)) (some (Kind.TKind TerrainKind.Desert))
    (some (Kind.TKind TerrainKind.Desert)) (some (Kind.TKind TerrainKind.Desert)) (by decide)

/-- C8: resolving the Special layer always yields `(0, none)`, for every tile,
grid and coordinate, regardless of the neighbor pattern. -/
theorem c8_special_layer (tile : Tile) (m : Map) (c : Int × Int) :
    get_tiles_to_display tile m c Layer.Special = (0, none) := rfl

set_option maxRecDepth 4000 in
/-- C9 counterexample: the source draws the noise seed inside the innermost
cell loop, so with a height oracle that depends only on the seed, the actual
`generate_multiple_patches` and the spec's once-per-patch-seed variant produce
different grids from the same PRNG stream: at stream `i ↦ i` the per-patch
seed is odd (no cell eligible) while per-cell seeds alternate, writing e.g.
cell `(93, 95)` of the single patch centered at `(95, 96)`. -/
theorem c9_seed_counterexample :
    (generate_multiple_patches hp_seed_parity rng_id plain_ocean_map
      (Kind.TKind TerrainKind.Plain) 2 1 2).1 (93, 95) ≠
    (generate_multiple_patches_patch_seed hp_seed_parity rng_id plain_ocean_map
      (Kind.TKind TerrainKind.Plain) 2 1 2).1 (93, 95) := by
  decide

/-- C9 (amended): `generate_multiple_patches` factors as: place the centers,
then per patch draw radius, frequency scale and amplitude scale exactly once
(independently per patch, from the given ranges) and run the cell loops, with
the noise seed drawn once per cell offset — not once per patch, so the cell
offsets of one patch do not share a single noise seed. -/
theorem c9_per_patch_params (hp : HeightOracle) (rng : StdRng) (m : Map) (kind : Kind)
    (count rLo rHi : Int) :
    generate_multiple_patches hp rng m kind count rLo rHi =
    generate_multiple_patches_factored hp rng m kind count rLo rHi :=
  gmp_factoring hp rng m kind count rLo rHi

/-- C10: in every grid returned by `build_map`, a tile whose Special layer is
Corn has Plain Terrain and no Feature entry, a tile whose Special layer is
Lumber has the Forest Feature, and a tile whose Special layer is Fish has the
Ocean Feature. -/
theorem c10_specials_consistency (hp : HeightOracle) (bern : BernOracle) (rng : StdRng)
    (k : Int × Int) : special_inv (build_map hp bern rng k) = true := by
  have hm := (build_map_inv hp bern rng).2.2.2
  generalize hkt : build_map hp bern rng k = o
  cases o with
  | none => rfl
  | some t => exact decide_eq_true (hm k t hkt)
